import Mathlib

/-!
Verification of the dynamic filter-clause compilers and the partial-update
compiler of the Jobly backend.

The embedding mirrors `Company.createFilterSql` (src/models/company.js),
`Job.createFilterSql` and `Job.update` (src/unnamed/part_000).  JavaScript
"absent or falsy" inputs are modelled with `Option`: a numeric argument is
`Option Int` (truthy iff present and nonzero), a string argument is
`Option String` (truthy iff present and nonempty), and the `hasEquity`
argument is a `Bool` recording the truthiness of whatever raw value the
caller supplied.  A thrown `BadRequestError` becomes `Except.error` carrying
the message; the JavaScript `false` return value ("no filter") becomes
`Option.none` inside `Except.ok`.
-/

/-- A compiled WHERE clause: the SQL text plus the ordered bind values
(the source's `sqlStatments` / `sanatizedStatments` pair). -/
structure CompiledClause where
  sqlStatments : String
  sanatizedStatments : List String
  deriving DecidableEq

/-- JavaScript truthiness of an optional string: present and nonempty. -/
def truthyStr : Option String → Bool
  | none => false
  | some s => s ≠ ""

/-- JavaScript truthiness of an optional number: present and nonzero. -/
def truthyInt : Option Int → Bool
  | none => false
  | some n => n ≠ 0

/-- JavaScript `<` on possibly-undefined numbers: comparing with
`undefined` yields `false` (NaN comparison); otherwise numeric `<`. -/
def jsLt : Option Int → Option Int → Bool
  | some a, some b => decide (a < b)
  | _, _ => false

/-- The string a truthy optional string interpolates to (only used on the
truthy branch, where the value is present). -/
def strVal (o : Option String) : String := o.getD ""

/-- The string a truthy optional number interpolates to (only used on the
truthy branch, where the value is present). -/
def intVal (o : Option Int) : String := toString (o.getD 0)

namespace Company

/-- The fragment and bind-value accumulation of `Company.createFilterSql`:
each truthy input appends its fragment, numbered with the current fragment
count plus one, and its sanitized bind value. -/
def filterParts (name : Option String) (minEmployees maxEmployees : Option Int) :
    List String × List String :=
  let acc : List String × List String := ([], [])
  let acc :=
    if truthyStr name then
      (acc.1 ++ ["name ILIKE $" ++ toString (acc.1.length + 1)],
       acc.2 ++ [strVal name ++ "%"])
    else acc
  let acc :=
    if truthyInt minEmployees then
      (acc.1 ++ ["num_employees > $" ++ toString (acc.1.length + 1)],
       acc.2 ++ [intVal minEmployees])
    else acc
  let acc :=
    if truthyInt maxEmployees then
      (acc.1 ++ ["num_employees < $" ++ toString (acc.1.length + 1)],
       acc.2 ++ [intVal maxEmployees])
    else acc
  acc

/-- `Company.createFilterSql` from src/models/company.js: accumulate the
truthy predicates, throw `BadRequestError` when `maxEmployees <
minEmployees` (JavaScript semantics: false when either is undefined),
return the joined WHERE clause with its bind values, or `false`
(here `none`) when no predicate was included. -/
def createFilterSql (name : Option String) (minEmployees maxEmployees : Option Int) :
    Except String (Option CompiledClause) :=
  let acc := filterParts name minEmployees maxEmployees
  if jsLt maxEmployees minEmployees then
    Except.error "minEmployees connot be greater than maxEmployees"
  else if acc.1.length > 0 then
    Except.ok (some ⟨"WHERE " ++ String.intercalate " AND " acc.1, acc.2⟩)
  else
    Except.ok none

/-- The query assembly in `Company.findAll`: compile the filter, splice the
clause (or the empty string when the compiler returned `false`) into the
SELECT, and pass the sanitized values (or no values). -/
def findAllSql (name : Option String) (minEmployees maxEmployees : Option Int) :
    Except String (String × List String) :=
  match createFilterSql name minEmployees maxEmployees with
  | Except.error e => Except.error e
  | Except.ok res =>
    let sqlStatments := match res with
      | some c => c.sqlStatments
      | none => ""
    let sanatizedStatments := match res with
      | some c => c.sanatizedStatments
      | none => []
    Except.ok
      ("SELECT handle, name, description, num_employees AS \"numEmployees\", logo_url AS \"logoUrl\" FROM companies "
        ++ (if sqlStatments ≠ "" then sqlStatments else "") ++ " ORDER BY name",
       sanatizedStatments)

end Company

namespace Job

/-- The fragment and bind-value accumulation of `Job.createFilterSql`:
truthy `title` and `minSalary` append numbered fragments with bind values;
truthy `hasEquity` appends the constant fragment `equity > 0` with no bind
value. -/
def filterParts (title : Option String) (minSalary : Option Int) (hasEquity : Bool) :
    List String × List String :=
  let acc : List String × List String := ([], [])
  let acc :=
    if truthyStr title then
      (acc.1 ++ ["title ILIKE $" ++ toString (acc.1.length + 1)],
       acc.2 ++ [strVal title ++ "%"])
    else acc
  let acc :=
    if truthyInt minSalary then
      (acc.1 ++ ["salary > $" ++ toString (acc.1.length + 1)],
       acc.2 ++ [intVal minSalary])
    else acc
  let acc :=
    if hasEquity then (acc.1 ++ ["equity > 0"], acc.2) else acc
  acc

/-- `Job.createFilterSql` from src/unnamed/part_000: accumulate the truthy
predicates (no cross-field validation), return the joined WHERE clause
with its bind values, or `false` (here `none`) when no predicate was
included. -/
def createFilterSql (title : Option String) (minSalary : Option Int) (hasEquity : Bool) :
    Except String (Option CompiledClause) :=
  let acc := filterParts title minSalary hasEquity
  if acc.1.length > 0 then
    Except.ok (some ⟨"WHERE " ++ String.intercalate " AND " acc.1, acc.2⟩)
  else
    Except.ok none

/-- The query assembly in `Job.findAll`: compile the filter, splice the
clause (or the empty string when the compiler returned `false`) into the
SELECT, and pass the sanitized values (or no values). -/
def findAllSql (title : Option String) (minSalary : Option Int) (hasEquity : Bool) :
    Except String (String × List String) :=
  match createFilterSql title minSalary hasEquity with
  | Except.error e => Except.error e
  | Except.ok res =>
    let sqlStatments := match res with
      | some c => c.sqlStatments
      | none => ""
    let sanatizedStatments := match res with
      | some c => c.sanatizedStatments
      | none => []
    Except.ok
      ("SELECT id, title, salary, equity, company_handle AS \"companyHandle\" FROM jobs "
        ++ (if sqlStatments ≠ "" then sqlStatments else "") ++ " ORDER BY company_handle",
       sanatizedStatments)

end Job

/-- The `column = $n` fragments of the partial-update compiler: for each
field, resolve the physical column through the column map (falling back to
the logical name) and number the placeholder with the field's 1-based
position. -/
def setColsFrom : List (String × String) → List (String × String) → Nat → List String
  | [], _, _ => []
  | (k, _) :: rest, columnMap, n =>
    ((List.lookup k columnMap).getD k ++ " = $" ++ toString n) :: setColsFrom rest columnMap (n + 1)

/-- Modelled from the spec: the helper `sqlForPartialUpdate` lives in
helpers/sql.js, which is not under src/ (only its callers and tests are).
Per spec section 4.2: fail with a "no data" validation error when `fields`
is empty; otherwise emit one `column = $n` fragment per field in iteration
order (resolving the column via `columnMap`, falling back to the logical
name), join the fragments with commas, and return the ordered bind
values. -/
def sqlForPartialUpdate (fields columnMap : List (String × String)) :
    Except String (String × List String) :=
  if fields.length = 0 then
    Except.error "no data"
  else
    Except.ok (String.intercalate ", " (setColsFrom fields columnMap 1), fields.map Prod.snd)

/-- The query assembly in `Job.update` (src/unnamed/part_000): compile the
SET clause with the job column map, reserve the next placeholder for the
row id, and append the id to the bind values. -/
def Job.updateSql (id : Int) (data : List (String × String)) :
    Except String (String × List String) :=
  match sqlForPartialUpdate data [("title", "title"), ("salary", "salary"), ("equity", "equity")] with
  | Except.error e => Except.error e
  | Except.ok (setCols, values) =>
    let idVarIdx := "$" ++ toString (values.length + 1)
    Except.ok
      ("UPDATE jobs SET " ++ setCols ++ " WHERE id = " ++ idVarIdx
        ++ " RETURNING id, title, salary, equity, company_handle AS \"companyHandle\"",
       values ++ [toString id])

/-- Scanner state-machine extracting the positional placeholder indices of
a clause: every `$`-prefixed digit run, in order of appearance. -/
def scanPlaceholders : List Char → Option Nat → List Nat
  | [], none => []
  | [], some acc => [acc]
  | c :: cs, none =>
    if c = '$' then scanPlaceholders cs (some 0) else scanPlaceholders cs none
  | c :: cs, some acc =>
    if c.isDigit then scanPlaceholders cs (some (acc * 10 + (c.toNat - 48)))
    else if c = '$' then acc :: scanPlaceholders cs (some 0)
    else acc :: scanPlaceholders cs none

/-- The positional placeholder indices appearing in a clause string, in
order of appearance. -/
def placeholderIndices (s : String) : List Nat :=
  scanPlaceholders s.data none

/-- One declared filter input, as the spec describes it: whether it is
included, the fragment it contributes at a given placeholder index, and
whether it consumes a placeholder. -/
structure FilterInput where
  included : Bool
  mkFrag : Nat → String
  usesPlaceholder : Bool

/-- Fragment list built the way the spec words it: walk the declared
inputs in declaration order, give each included fragment the next
placeholder index, and advance the index only for placeholder-consuming
fragments. -/
def specBuildFragments : List FilterInput → Nat → List String
  | [], _ => []
  | i :: rest, n =>
    if i.included then
      i.mkFrag n :: specBuildFragments rest (if i.usesPlaceholder then n + 1 else n)
    else
      specBuildFragments rest n

/-- The declared filter inputs of the company compiler, in declaration
order. -/
def Company.filterInputs (name : Option String) (minEmployees maxEmployees : Option Int) :
    List FilterInput :=
  [⟨truthyStr name, fun n => "name ILIKE $" ++ toString n, true⟩,
   ⟨truthyInt minEmployees, fun n => "num_employees > $" ++ toString n, true⟩,
   ⟨truthyInt maxEmployees, fun n => "num_employees < $" ++ toString n, true⟩]

/-- The declared filter inputs of the jobs compiler, in declaration
order. -/
def Job.filterInputs (title : Option String) (minSalary : Option Int) (hasEquity : Bool) :
    List FilterInput :=
  [⟨truthyStr title, fun n => "title ILIKE $" ++ toString n, true⟩,
   ⟨truthyInt minSalary, fun n => "salary > $" ++ toString n, true⟩,
   ⟨hasEquity, fun _ => "equity > 0", false⟩]

/-- C2: compiling the company filter with name "ba", minimum 200 and
maximum 500 yields exactly the clause
`WHERE name ILIKE $1 AND num_employees > $2 AND num_employees < $3` and
the ordered bind values `["ba%", "200", "500"]`. -/
theorem company_filter_example_compiles :
    Company.createFilterSql (some "ba") (some 200) (some 500) =
      Except.ok (some ⟨"WHERE name ILIKE $1 AND num_employees > $2 AND num_employees < $3",
        ["ba%", "200", "500"]⟩) := rfl

/-- C4 counterexample: a numeric filter input supplied with the explicit
value zero is NOT included — with minimum employees supplied as 0 (and
nothing else) the company compiler returns the no-filter signal, and
likewise the jobs compiler for a zero minimum salary. -/
theorem zero_filter_value_excluded_cex :
    Company.createFilterSql none (some 0) none = Except.ok none ∧
    Job.createFilterSql none (some 0) false = Except.ok none :=
  ⟨rfl, rfl⟩

/-- C4 (amended): a numeric filter input supplied with the explicit value
zero is treated exactly as an absent input — its predicate fragment and
bind value are excluded from the compiled clause. -/
theorem zero_filter_value_treated_absent (name : Option String) (mn mx : Option Int)
    (title : Option String) (he : Bool) :
    Company.filterParts name (some 0) mx = Company.filterParts name none mx ∧
    Company.filterParts name mn (some 0) = Company.filterParts name mn none ∧
    Job.filterParts title (some 0) he = Job.filterParts title none he := by
  refine ⟨?_, ?_, ?_⟩ <;> simp [Company.filterParts, Job.filterParts, truthyInt]

/-- C3: whenever both numeric bounds are supplied and the maximum is less
than the minimum, the company filter compiler fails with the
BadRequestError message and returns no clause or bind values. -/
theorem company_filter_bounds_error (name : Option String) (mn mx : Int)
    (h : mx < mn) :
    Company.createFilterSql name (some mn) (some mx) =
      Except.error "minEmployees connot be greater than maxEmployees" := by
  simp [Company.createFilterSql, jsLt, h]

/-- C3 witness: bounds 5 and 2 trigger the validation error. -/
theorem company_filter_bounds_error_witness :
    Company.createFilterSql none (some 5) (some 2) =
      Except.error "minEmployees connot be greater than maxEmployees" :=
  company_filter_bounds_error none 5 2 (by decide)

/-- C7: with every optional filter absent, both compilers return the
distinguished no-filter signal (not an empty-string clause), and both
callers then execute a query with no WHERE clause and no bind values. -/
theorem all_filters_absent_no_filter_signal :
    Company.createFilterSql none none none = Except.ok none ∧
    Job.createFilterSql none none false = Except.ok none ∧
    Company.findAllSql none none none =
      Except.ok ("SELECT handle, name, description, num_employees AS \"numEmployees\", logo_url AS \"logoUrl\" FROM companies  ORDER BY name", []) ∧
    Job.findAllSql none none false =
      Except.ok ("SELECT id, title, salary, equity, company_handle AS \"companyHandle\" FROM jobs  ORDER BY company_handle", []) :=
  ⟨rfl, rfl, rfl, rfl⟩

/-- C9: a zero maximum bound together with a positive minimum bound raises
the bounds-validation error, even though a zero maximum is otherwise
treated as not supplied and excluded from the fragments. -/
theorem zero_max_with_positive_min_errors (name : Option String) (mn : Int)
    (h : 0 < mn) :
    Company.createFilterSql name (some mn) (some 0) =
      Except.error "minEmployees connot be greater than maxEmployees" ∧
    Company.filterParts name (some mn) (some 0) = Company.filterParts name (some mn) none := by
  constructor
  · simp [Company.createFilterSql, jsLt, h]
  · simp [Company.filterParts, truthyInt]

/-- C9 witness: minimum 1 with maximum 0. -/
theorem zero_max_with_positive_min_errors_witness :
    Company.createFilterSql none (some 1) (some 0) =
      Except.error "minEmployees connot be greater than maxEmployees" ∧
    Company.filterParts none (some 1) (some 0) = Company.filterParts none (some 1) none :=
  zero_max_with_positive_min_errors none 1 (by decide)

/-- C10: the jobs filter compiler never raises a validation error — for
every input triple it returns a compiled clause or the no-filter
signal. -/
theorem job_filter_never_errors (title : Option String) (minSalary : Option Int)
    (hasEquity : Bool) :
    ∃ r, Job.createFilterSql title minSalary hasEquity = Except.ok r := by
  dsimp only [Job.createFilterSql]
  split
  · exact ⟨_, rfl⟩
  · exact ⟨_, rfl⟩

/-- C5: compiling a partial update from an empty field mapping fails with
the "no data" validation error for every column map, and the job update
query assembly propagates that error before any query text is built. -/
theorem empty_update_payload_error (columnMap : List (String × String)) (id : Int) :
    sqlForPartialUpdate [] columnMap = Except.error "no data" ∧
    Job.updateSql id [] = Except.error "no data" :=
  ⟨rfl, rfl⟩

/-- C8: a single field whose logical name is absent from the column map
compiles to a SET clause using the logical name verbatim — in particular
the field title ↦ "TESTTEST" yields clause `title = $1` and bind values
`["TESTTEST"]`. -/
theorem update_single_field_verbatim_column (columnMap : List (String × String))
    (h : List.lookup "title" columnMap = none) :
    sqlForPartialUpdate [("title", "TESTTEST")] columnMap =
      Except.ok ("title = $1", ["TESTTEST"]) := by
  simp only [sqlForPartialUpdate, setColsFrom, h]
  rfl

/-- C8 witness: the empty column map. -/
theorem update_single_field_verbatim_column_witness :
    List.lookup "title" ([] : List (String × String)) = none ∧
    sqlForPartialUpdate [("title", "TESTTEST")] [] =
      Except.ok ("title = $1", ["TESTTEST"]) :=
  ⟨rfl, update_single_field_verbatim_column [] rfl⟩

/-- Shape of a successful company compilation: the clause is `WHERE ` plus
the accumulated fragments joined by ` AND `, and the bind values are the
accumulated sanitized values. -/
theorem company_ok_clause_shape (name : Option String) (mn mx : Option Int)
    (c : CompiledClause)
    (hok : Company.createFilterSql name mn mx = Except.ok (some c)) :
    c.sqlStatments = "WHERE " ++ String.intercalate " AND " (Company.filterParts name mn mx).1 ∧
    c.sanatizedStatments = (Company.filterParts name mn mx).2 := by
  dsimp only [Company.createFilterSql] at hok
  split at hok
  · simp at hok
  · split at hok
    · simp only [Except.ok.injEq, Option.some.injEq] at hok
      subst hok
      exact ⟨rfl, rfl⟩
    · simp at hok

/-- Shape of a successful jobs compilation: the clause is `WHERE ` plus
the accumulated fragments joined by ` AND `, and the bind values are the
accumulated sanitized values. -/
theorem job_ok_clause_shape (title : Option String) (ms : Option Int) (he : Bool)
    (c : CompiledClause)
    (hok : Job.createFilterSql title ms he = Except.ok (some c)) :
    c.sqlStatments = "WHERE " ++ String.intercalate " AND " (Job.filterParts title ms he).1 ∧
    c.sanatizedStatments = (Job.filterParts title ms he).2 := by
  dsimp only [Job.createFilterSql] at hok
  split at hok
  · simp only [Except.ok.injEq, Option.some.injEq] at hok
    subst hok
    exact ⟨rfl, rfl⟩
  · simp at hok

/-- Case analysis over the company inputs: the joined clause's placeholder
indices are 1..k for k the number of bind values, and the fragments are
the spec's declaration-order numbering. -/
theorem company_parts_contiguous (name : Option String) (mn mx : Option Int) :
    placeholderIndices ("WHERE " ++ String.intercalate " AND " (Company.filterParts name mn mx).1) =
      List.range' 1 (Company.filterParts name mn mx).2.length ∧
    (Company.filterParts name mn mx).1 =
      specBuildFragments (Company.filterInputs name mn mx) 1 := by
  cases hn : truthyStr name <;> cases hm : truthyInt mn <;> cases hx : truthyInt mx <;>
      refine ⟨?_, ?_⟩ <;>
      simp [Company.filterParts, Company.filterInputs, specBuildFragments, hn, hm, hx] <;>
      decide

/-- Case analysis over the jobs inputs: the joined clause's placeholder
indices are 1..k for k the number of bind values, and the fragments are
the spec's declaration-order numbering. -/
theorem job_parts_contiguous (title : Option String) (ms : Option Int) (he : Bool) :
    placeholderIndices ("WHERE " ++ String.intercalate " AND " (Job.filterParts title ms he).1) =
      List.range' 1 (Job.filterParts title ms he).2.length ∧
    (Job.filterParts title ms he).1 =
      specBuildFragments (Job.filterInputs title ms he) 1 := by
  cases ht : truthyStr title <;> cases hs : truthyInt ms <;> cases he' : he <;>
      refine ⟨?_, ?_⟩ <;>
      simp [Job.filterParts, Job.filterInputs, specBuildFragments, ht, hs] <;>
      decide

/-- C1: for every combination of supplied/absent filter inputs, a compiled
clause's positional placeholder indices are the contiguous integers 1..k
with no gaps, k equals the length of the bind-value list, and the fragment
list is exactly the declaration-order, gap-free numbering the spec
describes (`specBuildFragments`), for both the company and the jobs
compiler. -/
theorem filter_placeholder_indices_contiguous :
    (∀ (name : Option String) (mn mx : Option Int) (c : CompiledClause),
      Company.createFilterSql name mn mx = Except.ok (some c) →
        placeholderIndices c.sqlStatments = List.range' 1 c.sanatizedStatments.length ∧
        (Company.filterParts name mn mx).1 =
          specBuildFragments (Company.filterInputs name mn mx) 1) ∧
    (∀ (title : Option String) (ms : Option Int) (he : Bool) (c : CompiledClause),
      Job.createFilterSql title ms he = Except.ok (some c) →
        placeholderIndices c.sqlStatments = List.range' 1 c.sanatizedStatments.length ∧
        (Job.filterParts title ms he).1 =
          specBuildFragments (Job.filterInputs title ms he) 1) := by
  constructor
  · intro name mn mx c hok
    obtain ⟨h1, h2⟩ := company_ok_clause_shape name mn mx c hok
    rw [h1, h2]
    exact company_parts_contiguous name mn mx
  · intro title ms he c hok
    obtain ⟨h1, h2⟩ := job_ok_clause_shape title ms he c hok
    rw [h1, h2]
    exact job_parts_contiguous title ms he

/-- C1 witness: all three company inputs supplied. -/
theorem filter_placeholder_indices_contiguous_witness :
    placeholderIndices "WHERE name ILIKE $1 AND num_employees > $2 AND num_employees < $3" =
      List.range' 1 3 ∧
    (Company.filterParts (some "ba") (some 200) (some 500)).1 =
      specBuildFragments (Company.filterInputs (some "ba") (some 200) (some 500)) 1 :=
  filter_placeholder_indices_contiguous.1 (some "ba") (some 200) (some 500)
    ⟨"WHERE name ILIKE $1 AND num_employees > $2 AND num_employees < $3",
      ["ba%", "200", "500"]⟩ rfl

/-- C6: a truthy `hasEquity` appends exactly the constant fragment
`equity > 0`, contributes no bind value, and every clause compiled with it
still has contiguous placeholder indices matching the bind-value count. -/
theorem hasEquity_constant_fragment (title : Option String) (ms : Option Int) :
    (Job.filterParts title ms true).1 = (Job.filterParts title ms false).1 ++ ["equity > 0"] ∧
    (Job.filterParts title ms true).2 = (Job.filterParts title ms false).2 ∧
    ∀ c : CompiledClause, Job.createFilterSql title ms true = Except.ok (some c) →
      placeholderIndices c.sqlStatments = List.range' 1 c.sanatizedStatments.length := by
  refine ⟨by simp [Job.filterParts], by simp [Job.filterParts], ?_⟩
  intro c hok
  obtain ⟨h1, h2⟩ := job_ok_clause_shape title ms true c hok
  rw [h1, h2]
  exact (job_parts_contiguous title ms true).1

/-- C6 witness: title, minimum salary and `hasEquity` all supplied; the
two placeholder-bearing predicates take indices 1 and 2. -/
theorem hasEquity_constant_fragment_witness :
    (Job.filterParts (some "ba") (some 100) true).1 =
      (Job.filterParts (some "ba") (some 100) false).1 ++ ["equity > 0"] ∧
    (Job.filterParts (some "ba") (some 100) true).2 =
      (Job.filterParts (some "ba") (some 100) false).2 ∧
    placeholderIndices "WHERE title ILIKE $1 AND salary > $2 AND equity > 0" =
      List.range' 1 2 :=
  ⟨(hasEquity_constant_fragment (some "ba") (some 100)).1,
   (hasEquity_constant_fragment (some "ba") (some 100)).2.1,
   (hasEquity_constant_fragment (some "ba") (some 100)).2.2
     ⟨"WHERE title ILIKE $1 AND salary > $2 AND equity > 0", ["ba%", "100"]⟩ rfl⟩
